import Mathlib

/-!
Verification development for the etcd snapshot creation planner of the
rancher provisioning codebase.  The definitions below are a shallow
embedding of `pkg/capr/planner/etcdcreate.go` (phase state machine,
per-node fan-out and error aggregation) and `pkg/capr/planner/s3args.go`
(S3 backend argument synthesis and credential resolution).  External
collaborators (plan generation, plan dispatch, secret lookup, hashing,
base64, path derivation) are passed in as explicit function parameters,
matching the interfaces at which the specification treats them.
-/

/-- Go error values of the planner, modelled explicitly: `waiting` is the
planner errWaiting sentinel (transient, retry-soliciting), `terminal` is any
other error.  A Go `error` result, which may be nil, is `Option GoError`. -/
inductive GoError where
  | waiting (msg : String)
  | terminal (msg : String)
deriving DecidableEq

/-- message gives the rendered text of an error (its Error() string). -/
def GoError.message : GoError → String
  | .waiting m => m
  | .terminal m => m

/-- IsErrWaiting reports whether an error is the planner waiting sentinel,
as the planner package predicate of the same name does. -/
def IsErrWaiting : GoError → Bool
  | .waiting _ => true
  | .terminal _ => false

/-- errWaiting builds a waiting error, as in the planner package. -/
def errWaiting (msg : String) : GoError := .waiting msg

/-- Modelled from the spec: composite errors are rendered as one combined
message (the external wrangler merr collaborator joins the component error
texts into a single string). -/
def merrMessage (errs : List GoError) : String :=
  String.intercalate ", " (errs.map GoError.message)

/-- ETCDSnapshotPhase is the phase enum of the snapshot state machine of
rkev1; `phaseEmpty` stands for the empty string value. -/
inductive ETCDSnapshotPhase where
  | phaseEmpty
  | started
  | restartCluster
  | finished
  | failed
deriving DecidableEq

/-- ETCDSnapshotCreate is the operator declared snapshot request of rkev1;
requests are compared by deep value equality. -/
structure ETCDSnapshotCreate where
  Generation : Int
deriving DecidableEq

/-- RKEControlPlaneStatus restricted to the fields the snapshot creation
state machine reads and writes.  A nil request pointer is `none`. -/
structure RKEControlPlaneStatus where
  ETCDSnapshotCreatePhase : ETCDSnapshotPhase
  ETCDSnapshotCreate : Option ETCDSnapshotCreate
deriving DecidableEq

/-- setEtcdSnapshotCreateState from etcdcreate.go: if the stored phase or the
stored request differs from the given ones, write both and return a waiting
error; otherwise return the status unchanged with no error. -/
def setEtcdSnapshotCreateState (status : RKEControlPlaneStatus)
    (create : Option ETCDSnapshotCreate) (phase : ETCDSnapshotPhase) :
    RKEControlPlaneStatus × Option GoError :=
  if status.ETCDSnapshotCreatePhase ≠ phase ∨ status.ETCDSnapshotCreate ≠ create then
    ({ status with ETCDSnapshotCreatePhase := phase, ETCDSnapshotCreate := create },
      some (errWaiting "refreshing etcd create state"))
  else
    (status, none)

/-- startOrRestartEtcdSnapshotCreate from etcdcreate.go: if no request is
stored or the stored request differs from the given one, invoke the setter
with the given request and the Started phase; otherwise no-op. -/
def startOrRestartEtcdSnapshotCreate (status : RKEControlPlaneStatus)
    (snapshot : Option ETCDSnapshotCreate) :
    RKEControlPlaneStatus × Option GoError :=
  if status.ETCDSnapshotCreate = none ∨ snapshot ≠ status.ETCDSnapshotCreate then
    setEtcdSnapshotCreateState status snapshot .started
  else
    (status, none)

/-- C1: the phase-state setter setEtcdSnapshotCreateState returns the status
unchanged with no error when the stored phase already equals the given phase
and the stored request is deep-equal to the given request; otherwise it
writes both the phase and the request into the status and returns a waiting
condition; it never returns a modified status together with a nil error; and
a second call with the same arguments after a first call is a no-op. -/
theorem C1_setEtcdSnapshotCreateState_spec
    (status : RKEControlPlaneStatus) (create : Option ETCDSnapshotCreate)
    (phase : ETCDSnapshotPhase) :
    (status.ETCDSnapshotCreatePhase = phase → status.ETCDSnapshotCreate = create →
      setEtcdSnapshotCreateState status create phase = (status, none))
    ∧ (status.ETCDSnapshotCreatePhase ≠ phase ∨ status.ETCDSnapshotCreate ≠ create →
      setEtcdSnapshotCreateState status create phase =
        ({ status with ETCDSnapshotCreatePhase := phase, ETCDSnapshotCreate := create },
          some (errWaiting "refreshing etcd create state")))
    ∧ (∀ st, setEtcdSnapshotCreateState status create phase = (st, none) → st = status)
    ∧ setEtcdSnapshotCreateState
        (setEtcdSnapshotCreateState status create phase).1 create phase =
        ((setEtcdSnapshotCreateState status create phase).1, none) := by
  unfold setEtcdSnapshotCreateState
  by_cases h : status.ETCDSnapshotCreatePhase ≠ phase ∨ status.ETCDSnapshotCreate ≠ create
  · refine ⟨?_, ?_, ?_, ?_⟩
    · intro h1 h2
      rcases h with h | h
      · exact absurd h1 h
      · exact absurd h2 h
    · intro _
      simp [h]
    · intro st hst
      simp [h] at hst
    · simp [h]
  · push_neg at h
    refine ⟨?_, ?_, ?_, ?_⟩
    · intro _ _
      simp [h.1, h.2]
    · intro hcontra
      rcases hcontra with hc | hc
      · exact absurd h.1 hc
      · exact absurd h.2 hc
    · intro st hst
      simp [h.1, h.2] at hst
      simp [hst.symm]
    · simp [h.1, h.2]

/-- Witness for C1 at a concrete input: a first call that changes the phase
returns a waiting error, and the second call with the same arguments is a
no-op. -/
theorem C1_setEtcdSnapshotCreateState_spec_witness :
    setEtcdSnapshotCreateState ⟨.phaseEmpty, none⟩ (some ⟨1⟩) .started =
      (⟨.started, some ⟨1⟩⟩, some (errWaiting "refreshing etcd create state"))
    ∧ setEtcdSnapshotCreateState ⟨.started, some ⟨1⟩⟩ (some ⟨1⟩) .started =
      (⟨.started, some ⟨1⟩⟩, none) :=
  ⟨(C1_setEtcdSnapshotCreateState_spec ⟨.phaseEmpty, none⟩ (some ⟨1⟩) .started).2.1
      (Or.inl (by decide)),
    (C1_setEtcdSnapshotCreateState_spec ⟨.started, some ⟨1⟩⟩ (some ⟨1⟩) .started).1
      rfl rfl⟩

/-- C7 counterexample: the claim states that startOrRestartEtcdSnapshotCreate
is a no-op returning the status unchanged with no error whenever the stored
request deep-equals the current request.  With a stored Finished phase, a nil
stored request and a nil current request, the stored request deep-equals the
current one (both nil), yet the function writes the Started phase and returns
a waiting error. -/
theorem C7_startOrRestart_counterexample :
    (⟨.finished, none⟩ : RKEControlPlaneStatus).ETCDSnapshotCreate =
      (none : Option ETCDSnapshotCreate)
    ∧ startOrRestartEtcdSnapshotCreate ⟨.finished, none⟩ none =
      (⟨.started, none⟩, some (errWaiting "refreshing etcd create state"))
    ∧ startOrRestartEtcdSnapshotCreate ⟨.finished, none⟩ none ≠
      (⟨.finished, none⟩, none) := by
  refine ⟨rfl, rfl, ?_⟩
  intro h
  simp [startOrRestartEtcdSnapshotCreate, setEtcdSnapshotCreateState] at h

/-- C7 amended: startOrRestartEtcdSnapshotCreate sets the phase to Started and
stores the current request, returning a waiting condition, whenever no request
is stored or the stored request is structurally unequal to the current one —
except that when the stored request and the current request are both nil and
the phase is already Started it is a no-op with no error; and it is a no-op
returning the status unchanged with no error when a non-nil stored request
deep-equals the current request. -/
theorem C7_startOrRestart_amended (status : RKEControlPlaneStatus)
    (snapshot : Option ETCDSnapshotCreate) :
    (status.ETCDSnapshotCreate = none ∨ snapshot ≠ status.ETCDSnapshotCreate →
      ¬(snapshot = none ∧ status.ETCDSnapshotCreate = none ∧
          status.ETCDSnapshotCreatePhase = .started) →
      startOrRestartEtcdSnapshotCreate status snapshot =
        ({ status with ETCDSnapshotCreatePhase := .started, ETCDSnapshotCreate := snapshot },
          some (errWaiting "refreshing etcd create state")))
    ∧ (snapshot = none → status.ETCDSnapshotCreate = none →
      status.ETCDSnapshotCreatePhase = .started →
      startOrRestartEtcdSnapshotCreate status snapshot = (status, none))
    ∧ (status.ETCDSnapshotCreate ≠ none → snapshot = status.ETCDSnapshotCreate →
      startOrRestartEtcdSnapshotCreate status snapshot = (status, none)) := by
  refine ⟨?_, ?_, ?_⟩
  · intro h1 h2
    have hset : status.ETCDSnapshotCreatePhase ≠ ETCDSnapshotPhase.started ∨
        status.ETCDSnapshotCreate ≠ snapshot := by
      rcases h1 with h1 | h1
      · by_cases hs : snapshot = none
        · left
          intro hp
          exact h2 ⟨hs, h1, hp⟩
        · right
          rw [h1]
          exact fun he => hs he.symm
      · exact Or.inr (Ne.symm h1)
    unfold startOrRestartEtcdSnapshotCreate
    rw [if_pos h1]
    simp [setEtcdSnapshotCreateState, hset]
  · intro hs hc hp
    unfold startOrRestartEtcdSnapshotCreate
    simp [hs, hc, setEtcdSnapshotCreateState, hp]
  · intro hc hs
    unfold startOrRestartEtcdSnapshotCreate
    simp [hs, hc]

/-- Witness for C7 amended at concrete inputs: a stored Finished phase with
request generation 1 restarts on request generation 2; the same call with the
unchanged stored request is a no-op. -/
theorem C7_startOrRestart_amended_witness :
    startOrRestartEtcdSnapshotCreate ⟨.finished, some ⟨1⟩⟩ (some ⟨2⟩) =
      (⟨.started, some ⟨2⟩⟩, some (errWaiting "refreshing etcd create state"))
    ∧ startOrRestartEtcdSnapshotCreate ⟨.finished, some ⟨1⟩⟩ (some ⟨1⟩) =
      (⟨.finished, some ⟨1⟩⟩, none) :=
  ⟨(C7_startOrRestart_amended ⟨.finished, some ⟨1⟩⟩ (some ⟨2⟩)).1
      (Or.inr (by decide)) (by decide),
    (C7_startOrRestart_amended ⟨.finished, some ⟨1⟩⟩ (some ⟨1⟩)).2.2
      (by decide) rfl⟩

/-- createLoopState is the mutable state of the error aggregation loop in the
Started case of createEtcdSnapshot: the threaded status, the stateSet flag and
the finErrs accumulator. -/
structure createLoopState where
  status : RKEControlPlaneStatus
  stateSet : Bool
  finErrs : List GoError
deriving DecidableEq

/-- createStartedStep is one iteration of the error aggregation loop in the
Started case of createEtcdSnapshot (etcdcreate.go lines 110 to 126): nil
errors are skipped, every non-nil error is appended to finErrs, and on a
non-waiting error the Failed phase is written through the setter unless
stateSet already holds; a waiting result of the setter is appended to finErrs,
a nil result sets stateSet. -/
def createStartedStep (snapshot : Option ETCDSnapshotCreate)
    (s : createLoopState) (e : Option GoError) : createLoopState :=
  match e with
  | none => s
  | some err =>
    let s1 : createLoopState := { s with finErrs := s.finErrs ++ [err] }
    if IsErrWaiting err then s1
    else if s1.stateSet then s1
    else
      match setEtcdSnapshotCreateState s1.status snapshot .failed with
      | (st, some e2) => { s1 with status := st, finErrs := s1.finErrs ++ [e2] }
      | (st, none) => { s1 with status := st, stateSet := true }

/-- createEtcdSnapshotStartedCase is the Started case of createEtcdSnapshot
(etcdcreate.go lines 106 to 132), parameterized by the error list the
per-node fan-out returned: with at least one error it runs the aggregation
loop and returns a waiting condition carrying the combined message; with no
errors it advances the phase to RestartCluster through the setter. -/
def createEtcdSnapshotStartedCase (status : RKEControlPlaneStatus)
    (snapshot : Option ETCDSnapshotCreate) (errs : List (Option GoError)) :
    RKEControlPlaneStatus × Option GoError :=
  if errs.length > 0 then
    let s := errs.foldl (createStartedStep snapshot) ⟨status, false, []⟩
    (s.status, some (errWaiting (merrMessage s.finErrs)))
  else
    setEtcdSnapshotCreateState status snapshot .restartCluster

/-- nonNilErrs drops the nil entries of a Go error slice. -/
def nonNilErrs (errs : List (Option GoError)) : List GoError :=
  errs.filterMap id

/-- anyTerminal reports whether some error of the list is non-waiting. -/
def anyTerminal (l : List GoError) : Bool :=
  l.any (fun e => !IsErrWaiting e)

/-- hasTerminalErr reports whether a Go error slice holds some non-nil,
non-waiting error. -/
def hasTerminalErr (errs : List (Option GoError)) : Bool :=
  anyTerminal (nonNilErrs errs)

/-- insertRefreshAfterFirstTerminal places the waiting error produced by the
Failed phase write right after the first non-waiting error of the list,
which is where the aggregation loop appends it. -/
def insertRefreshAfterFirstTerminal : List GoError → List GoError
  | [] => []
  | e :: rest =>
    if IsErrWaiting e then e :: insertRefreshAfterFirstTerminal rest
    else e :: errWaiting "refreshing etcd create state" :: rest

theorem nonNilErrs_nil : nonNilErrs [] = [] := rfl

theorem nonNilErrs_cons_none (l : List (Option GoError)) :
    nonNilErrs (none :: l) = nonNilErrs l := rfl

theorem nonNilErrs_cons_some (e : GoError) (l : List (Option GoError)) :
    nonNilErrs (some e :: l) = e :: nonNilErrs l := rfl

theorem hasTerminalErr_cons_none (l : List (Option GoError)) :
    hasTerminalErr (none :: l) = hasTerminalErr l := rfl

theorem hasTerminalErr_cons_some (e : GoError) (l : List (Option GoError)) :
    hasTerminalErr (some e :: l) = (!IsErrWaiting e || hasTerminalErr l) := by
  simp [hasTerminalErr, nonNilErrs, anyTerminal]

theorem createStartedStep_none (snapshot : Option ETCDSnapshotCreate)
    (s : createLoopState) : createStartedStep snapshot s none = s := rfl

theorem createStartedStep_some_waiting (snapshot : Option ETCDSnapshotCreate)
    (s : createLoopState) (err : GoError) (hw : IsErrWaiting err = true) :
    createStartedStep snapshot s (some err) =
      { s with finErrs := s.finErrs ++ [err] } := by
  simp [createStartedStep, hw]

theorem createStartedStep_some_terminal_set (snapshot : Option ETCDSnapshotCreate)
    (s : createLoopState) (err : GoError) (hw : IsErrWaiting err = false)
    (hs : s.stateSet = true) :
    createStartedStep snapshot s (some err) =
      { s with finErrs := s.finErrs ++ [err] } := by
  simp [createStartedStep, hw, hs]

theorem createStartedStep_some_terminal_unset (snapshot : Option ETCDSnapshotCreate)
    (s : createLoopState) (err : GoError) (hw : IsErrWaiting err = false)
    (hs : s.stateSet = false) :
    createStartedStep snapshot s (some err) =
      match setEtcdSnapshotCreateState s.status snapshot .failed with
      | (st, some e2) =>
        { status := st, stateSet := false, finErrs := s.finErrs ++ [err] ++ [e2] }
      | (st, none) =>
        { status := st, stateSet := true, finErrs := s.finErrs ++ [err] } := by
  simp only [createStartedStep, hw, Bool.false_eq_true, if_false, hs]

/-- createStartedFold_stateSet characterizes the aggregation loop once
stateSet holds: the status is frozen and every further non-nil error is
appended to finErrs. -/
theorem createStartedFold_stateSet (snapshot : Option ETCDSnapshotCreate)
    (l : List (Option GoError)) :
    ∀ st fe, l.foldl (createStartedStep snapshot) ⟨st, true, fe⟩ =
      ⟨st, true, fe ++ nonNilErrs l⟩ := by
  induction l with
  | nil => intro st fe; simp [nonNilErrs]
  | cons e l ih =>
    intro st fe
    match e with
    | none =>
      rw [List.foldl_cons, createStartedStep_none, ih st fe, nonNilErrs_cons_none]
    | some err =>
      rw [List.foldl_cons, nonNilErrs_cons_some]
      by_cases hw : IsErrWaiting err = true
      · rw [createStartedStep_some_waiting snapshot _ err hw]
        have := ih st (fe ++ [err])
        simp only [List.append_assoc, List.singleton_append] at this ⊢
        exact this
      · rw [createStartedStep_some_terminal_set snapshot _ err
          (by simpa using hw) rfl]
        have := ih st (fe ++ [err])
        simp only [List.append_assoc, List.singleton_append] at this ⊢
        exact this

/-- createStartedFold_failedStatus characterizes the aggregation loop when the
threaded status already carries the Failed phase and the given request but
stateSet does not hold yet: the first further non-waiting error flips
stateSet through a no-op setter call, the status never changes again and no
extra message is appended. -/
theorem createStartedFold_failedStatus (snapshot : Option ETCDSnapshotCreate)
    (l : List (Option GoError)) :
    ∀ fs fe, fs.ETCDSnapshotCreatePhase = .failed → fs.ETCDSnapshotCreate = snapshot →
      l.foldl (createStartedStep snapshot) ⟨fs, false, fe⟩ =
        ⟨fs, hasTerminalErr l, fe ++ nonNilErrs l⟩ := by
  induction l with
  | nil => intro fs fe _ _; simp [nonNilErrs, hasTerminalErr, anyTerminal]
  | cons e l ih =>
    intro fs fe hp hc
    match e with
    | none =>
      rw [List.foldl_cons, createStartedStep_none, ih fs fe hp hc,
        nonNilErrs_cons_none, hasTerminalErr_cons_none]
    | some err =>
      rw [List.foldl_cons, nonNilErrs_cons_some, hasTerminalErr_cons_some]
      by_cases hw : IsErrWaiting err = true
      · rw [createStartedStep_some_waiting snapshot _ err hw]
        have hterm : (!IsErrWaiting err || hasTerminalErr l) = hasTerminalErr l := by
          simp [hw]
        rw [hterm]
        have := ih fs (fe ++ [err]) hp hc
        simp only [List.append_assoc, List.singleton_append] at this ⊢
        exact this
      · have hwf : IsErrWaiting err = false := by simpa using hw
        rw [createStartedStep_some_terminal_unset snapshot _ err hwf rfl]
        have hnoop : setEtcdSnapshotCreateState fs snapshot .failed = (fs, none) := by
          unfold setEtcdSnapshotCreateState
          rw [if_neg]
          push_neg
          exact ⟨hp, hc⟩
        rw [hnoop]
        have hterm : (!IsErrWaiting err || hasTerminalErr l) = true := by simp [hwf]
        rw [hterm]
        have := createStartedFold_stateSet snapshot l fs (fe ++ [err])
        simp only [List.append_assoc, List.singleton_append] at this ⊢
        exact this

/-- createStartedFold_main characterizes the aggregation loop from its initial
state when the threaded status is not already the Failed status for the given
request: without any non-waiting error the status is untouched and finErrs
collects exactly the non-nil errors; with a non-waiting error the status is
written to Failed exactly once and the single refresh message is inserted
after the first non-waiting error. -/
theorem createStartedFold_main (snapshot : Option ETCDSnapshotCreate)
    (l : List (Option GoError)) :
    ∀ st fe, ¬(st.ETCDSnapshotCreatePhase = .failed ∧ st.ETCDSnapshotCreate = snapshot) →
      (l.foldl (createStartedStep snapshot) ⟨st, false, fe⟩).status =
        (if hasTerminalErr l then
          { st with ETCDSnapshotCreatePhase := .failed, ETCDSnapshotCreate := snapshot }
        else st)
      ∧ (l.foldl (createStartedStep snapshot) ⟨st, false, fe⟩).finErrs =
        fe ++ (if hasTerminalErr l then insertRefreshAfterFirstTerminal (nonNilErrs l)
          else nonNilErrs l) := by
  induction l with
  | nil =>
    intro st fe _
    simp [nonNilErrs, hasTerminalErr, anyTerminal]
  | cons e l ih =>
    intro st fe hne
    match e with
    | none =>
      rw [List.foldl_cons, createStartedStep_none, hasTerminalErr_cons_none,
        nonNilErrs_cons_none]
      exact ih st fe hne
    | some err =>
      rw [List.foldl_cons, nonNilErrs_cons_some, hasTerminalErr_cons_some]
      by_cases hw : IsErrWaiting err = true
      · rw [createStartedStep_some_waiting snapshot _ err hw]
        have hterm : (!IsErrWaiting err || hasTerminalErr l) = hasTerminalErr l := by
          simp [hw]
        rw [hterm]
        obtain ⟨ih1, ih2⟩ := ih st (fe ++ [err]) hne
        constructor
        · exact ih1
        · rw [ih2]
          by_cases ht : hasTerminalErr l
          · rw [if_pos ht, if_pos ht]
            simp [insertRefreshAfterFirstTerminal, hw]
          · rw [if_neg (by simp [ht]), if_neg (by simp [ht])]
            simp
      · have hwf : IsErrWaiting err = false := by simpa using hw
        rw [createStartedStep_some_terminal_unset snapshot _ err hwf rfl]
        have hwrite : setEtcdSnapshotCreateState st snapshot .failed =
            ({ st with ETCDSnapshotCreatePhase := .failed, ETCDSnapshotCreate := snapshot },
              some (errWaiting "refreshing etcd create state")) := by
          unfold setEtcdSnapshotCreateState
          rw [if_pos]
          rcases not_and_or.mp hne with h | h
          · exact Or.inl h
          · exact Or.inr h
        rw [hwrite]
        have hterm : (!IsErrWaiting err || hasTerminalErr l) = true := by simp [hwf]
        rw [hterm]
        have hfold := createStartedFold_failedStatus snapshot l
          { st with ETCDSnapshotCreatePhase := .failed, ETCDSnapshotCreate := snapshot }
          (fe ++ [err] ++ [errWaiting "refreshing etcd create state"]) rfl rfl
        rw [hfold]
        have hins : insertRefreshAfterFirstTerminal (err :: nonNilErrs l) =
            err :: errWaiting "refreshing etcd create state" :: nonNilErrs l := by
          simp [insertRefreshAfterFirstTerminal, hwf]
        rw [if_pos rfl, if_pos rfl, hins]
        simp

theorem nonNilErrs_ne_nil_length_pos (errs : List (Option GoError))
    (h : nonNilErrs errs ≠ []) : 0 < errs.length := by
  cases errs with
  | nil => simp [nonNilErrs] at h
  | cons e l => simp

theorem hasTerminalErr_nonNil (errs : List (Option GoError))
    (h : hasTerminalErr errs = true) : nonNilErrs errs ≠ [] := by
  intro hnil
  rw [hasTerminalErr, hnil] at h
  simp [anyTerminal] at h

theorem mem_insertRefreshAfterFirstTerminal (l : List GoError) :
    ∀ e ∈ l, e ∈ insertRefreshAfterFirstTerminal l := by
  induction l with
  | nil => intro e he; cases he
  | cons a rest ih =>
    intro e he
    rw [insertRefreshAfterFirstTerminal]
    rcases List.mem_cons.mp he with he | he
    · split <;> exact List.mem_cons.mpr (Or.inl he)
    · split
      · exact List.mem_cons.mpr (Or.inr (ih e he))
      · exact List.mem_cons.mpr (Or.inr (List.mem_cons.mpr (Or.inr he)))

theorem count_insertRefreshAfterFirstTerminal (l : List GoError)
    (h : anyTerminal l = true) :
    (insertRefreshAfterFirstTerminal l).count (errWaiting "refreshing etcd create state") =
      l.count (errWaiting "refreshing etcd create state") + 1 := by
  induction l with
  | nil => simp [anyTerminal] at h
  | cons a rest ih =>
    rw [insertRefreshAfterFirstTerminal]
    by_cases hw : IsErrWaiting a = true
    · rw [if_pos hw]
      have hrest : anyTerminal rest = true := by
        rcases (List.any_eq_true).mp h with ⟨x, hx, hxt⟩
        rcases List.mem_cons.mp hx with hx | hx
        · subst hx; simp [hw] at hxt
        · exact (List.any_eq_true).mpr ⟨x, hx, hxt⟩
      rw [List.count_cons, List.count_cons, ih hrest]
      omega
    · rw [if_neg hw]
      rw [List.count_cons, List.count_cons, List.count_cons]
      simp
      omega

/-- C2: in the Started phase, when the per-node fan-out returned at least one
non-waiting error, the phase is written to Failed exactly once no matter how
many nodes failed (the single refresh message is inserted once after the
first non-waiting error), and a waiting condition is returned whose message
combines every collected per-node error; when every returned error is a
waiting error, the status is left unchanged (the phase is not set to Failed)
and a waiting condition combining them is returned. -/
theorem C2_createStartedCase_spec (status : RKEControlPlaneStatus)
    (snapshot : Option ETCDSnapshotCreate) (errs : List (Option GoError))
    (hphase : status.ETCDSnapshotCreatePhase = .started) :
    (hasTerminalErr errs = true →
      createEtcdSnapshotStartedCase status snapshot errs =
        ({ status with ETCDSnapshotCreatePhase := .failed, ETCDSnapshotCreate := snapshot },
          some (errWaiting (merrMessage
            (insertRefreshAfterFirstTerminal (nonNilErrs errs))))))
    ∧ (hasTerminalErr errs = false → nonNilErrs errs ≠ [] →
      createEtcdSnapshotStartedCase status snapshot errs =
        (status, some (errWaiting (merrMessage (nonNilErrs errs)))))
    ∧ (∀ e ∈ nonNilErrs errs, e ∈ insertRefreshAfterFirstTerminal (nonNilErrs errs))
    ∧ (hasTerminalErr errs = true →
      (insertRefreshAfterFirstTerminal (nonNilErrs errs)).count
          (errWaiting "refreshing etcd create state") =
        (nonNilErrs errs).count (errWaiting "refreshing etcd create state") + 1) := by
  have hne : ¬(status.ETCDSnapshotCreatePhase = .failed ∧
      status.ETCDSnapshotCreate = snapshot) := by
    intro hcontra
    rw [hphase] at hcontra
    cases hcontra.1
  refine ⟨?_, ?_, mem_insertRefreshAfterFirstTerminal _, ?_⟩
  · intro ht
    have hlen : 0 < errs.length :=
      nonNilErrs_ne_nil_length_pos errs (hasTerminalErr_nonNil errs ht)
    obtain ⟨h1, h2⟩ := createStartedFold_main snapshot errs status [] hne
    rw [if_pos ht] at h1 h2
    unfold createEtcdSnapshotStartedCase
    rw [if_pos hlen]
    show ((List.foldl (createStartedStep snapshot) ⟨status, false, []⟩ errs).status,
        some (errWaiting (merrMessage
          (List.foldl (createStartedStep snapshot) ⟨status, false, []⟩ errs).finErrs))) = _
    rw [h1, h2]
    simp
  · intro ht hnonnil
    have hlen : 0 < errs.length := nonNilErrs_ne_nil_length_pos errs hnonnil
    obtain ⟨h1, h2⟩ := createStartedFold_main snapshot errs status [] hne
    rw [if_neg (by simp [ht])] at h1 h2
    unfold createEtcdSnapshotStartedCase
    rw [if_pos hlen]
    show ((List.foldl (createStartedStep snapshot) ⟨status, false, []⟩ errs).status,
        some (errWaiting (merrMessage
          (List.foldl (createStartedStep snapshot) ⟨status, false, []⟩ errs).finErrs))) = _
    rw [h1, h2]
    simp
  · intro ht
    exact count_insertRefreshAfterFirstTerminal (nonNilErrs errs) ht

/-- Witness for C2 at a concrete input: one terminal node error followed by
one waiting node error flips the status to Failed and yields the combined
waiting message with the single refresh entry inserted in between. -/
theorem C2_createStartedCase_spec_witness :
    hasTerminalErr [some (GoError.terminal "node a failed"),
        some (GoError.waiting "node b waiting")] = true
    ∧ createEtcdSnapshotStartedCase ⟨.started, some ⟨1⟩⟩ (some ⟨1⟩)
        [some (GoError.terminal "node a failed"), some (GoError.waiting "node b waiting")] =
      (⟨.failed, some ⟨1⟩⟩,
        some (errWaiting (merrMessage (insertRefreshAfterFirstTerminal
          (nonNilErrs [some (GoError.terminal "node a failed"),
            some (GoError.waiting "node b waiting")]))))) :=
  ⟨rfl,
    (C2_createStartedCase_spec ⟨.started, some ⟨1⟩⟩ (some ⟨1⟩)
      [some (GoError.terminal "node a failed"), some (GoError.waiting "node b waiting")]
      rfl).1 rfl⟩

/-- PlanFile is a side file of an instruction plan: a payload and a target
path (the source stores the payload base64 encoded). -/
structure PlanFile where
  Content : String
  Path : String
deriving DecidableEq

/-- OneTimeInstruction is a single instruction of a node plan. -/
structure OneTimeInstruction where
  Name : String
  Command : String
  Args : List String
deriving DecidableEq

/-- NodePlan is the instruction document dispatched to one node. -/
structure NodePlan where
  Instructions : List OneTimeInstruction
  Files : List PlanFile
deriving DecidableEq

/-- Machine identity of a plan entry: namespace, name and the optional node
reference name of its status (nil is `none`). -/
structure Machine where
  Namespace : String
  Name : String
  NodeRefName : Option String
deriving DecidableEq

/-- planEntry is one candidate machine of the cluster plan, tagged with
whether it holds the etcd role. -/
structure planEntry where
  Machine : Machine
  EtcdRole : Bool
deriving DecidableEq

/-- Modelled from the spec: the isEtcd predicate of the planner package is
not under src; per the spec it selects nodes holding the etcd member role,
which the embedding carries as the EtcdRole tag. -/
def isEtcd (entry : planEntry) : Bool := entry.EtcdRole

/-- Modelled from the spec: the collect helper of the planner package is not
under src; per the spec the fan-out filters the full node topology to the
nodes satisfying the role predicate. -/
def collect (clusterPlan : List planEntry) (include_ : planEntry → Bool) :
    List planEntry :=
  clusterPlan.filter include_

/-- EtcdCreateCollab bundles the external collaborators the fan-out consumes
at their interfaces: generatePlanWithConfigFiles returns the base plan, the
joined server and an error for an entry; generateInstallInstruction returns
the install instruction for an entry; runtimeCommand is the runtime command
of the declared kubernetes version; assignAndCheckPlan is the plan delivery
transport taking a description, the entry, the plan, the join server and the
success and failure thresholds. -/
structure EtcdCreateCollab where
  generatePlanWithConfigFiles : planEntry → String → NodePlan × String × Option GoError
  generateInstallInstruction : planEntry → OneTimeInstruction
  runtimeCommand : String
  assignAndCheckPlan : String → planEntry → NodePlan → String → Nat → Nat → Option GoError

/-- generateEtcdSnapshotCreatePlan from etcdcreate.go: the base plan of the
entry extended with the install instruction and the one-time create
instruction whose command is the runtime command and whose argument list is
the fixed etcd-snapshot argument. -/
def generateEtcdSnapshotCreatePlan (c : EtcdCreateCollab) (entry : planEntry)
    (joinServer : String) : NodePlan × String × Option GoError :=
  let args := ["etcd-snapshot"]
  let r := c.generatePlanWithConfigFiles entry joinServer
  ({ r.1 with Instructions := r.1.Instructions ++
      [c.generateInstallInstruction entry,
        { Name := "create", Command := c.runtimeCommand, Args := args }] },
    r.2.1, r.2.2)

/-- snapshotMsg is the per-node description built in runEtcdSnapshotCreate:
the node reference name when present and non-empty, else the machine
namespace and name. -/
def snapshotMsg (server : planEntry) : String :=
  match server.Machine.NodeRefName with
  | some n =>
    if n = "" then
      "etcd snapshot on machine " ++ server.Machine.Namespace ++ "/" ++ server.Machine.Name
    else "etcd snapshot on node " ++ n
  | none =>
    "etcd snapshot on machine " ++ server.Machine.Namespace ++ "/" ++ server.Machine.Name

/-- nodeDispatchResult is the transport outcome for one entry whose plan
generation succeeded: assignAndCheckPlan on the generated plan and joined
server with thresholds 3 and 3. -/
def nodeDispatchResult (c : EtcdCreateCollab) (joinServer : String)
    (server : planEntry) : Option GoError :=
  c.assignAndCheckPlan (snapshotMsg server) server
    (generateEtcdSnapshotCreatePlan c server joinServer).1
    (generateEtcdSnapshotCreatePlan c server joinServer).2.1 3 3

/-- RunResult carries the error slice runEtcdSnapshotCreate returns together
with the trace of entries actually handed to the transport (the sequence of
assignAndCheckPlan calls the loop performs). -/
structure RunResult where
  errs : List (Option GoError)
  dispatched : List planEntry
deriving DecidableEq

/-- runEtcdSnapshotCreateLoop is the fan-out loop of runEtcdSnapshotCreate
(etcdcreate.go lines 46 to 58): a plan generation error returns immediately
as the only element of the slice, discarding accumulated errors and skipping
later nodes; otherwise the entry is dispatched and a non-nil transport error
is appended. -/
def runEtcdSnapshotCreateLoop (c : EtcdCreateCollab) (joinServer : String) :
    List planEntry → List (Option GoError) → List planEntry → RunResult
  | [], errs, disp => ⟨errs, disp⟩
  | server :: rest, errs, disp =>
    match (generateEtcdSnapshotCreatePlan c server joinServer).2.2 with
    | some e => ⟨[some e], disp⟩
    | none =>
      match nodeDispatchResult c joinServer server with
      | some e =>
        runEtcdSnapshotCreateLoop c joinServer rest (errs ++ [some e]) (disp ++ [server])
      | none => runEtcdSnapshotCreateLoop c joinServer rest errs (disp ++ [server])

/-- runEtcdSnapshotCreate from etcdcreate.go: filter the cluster plan to the
etcd role nodes; an empty result is the single terminal error about a
missing node; otherwise run the fan-out loop. -/
def runEtcdSnapshotCreate (c : EtcdCreateCollab) (clusterPlan : List planEntry)
    (joinServer : String) : RunResult :=
  let servers := collect clusterPlan isEtcd
  if servers.length = 0 then
    ⟨[some (GoError.terminal "failed to find node to perform etcd snapshot")], []⟩
  else runEtcdSnapshotCreateLoop c joinServer servers [] []

/-- runEtcdSnapshotCreateLoop_allGenOk characterizes the loop when plan
generation succeeds for every remaining entry: every entry is dispatched in
order and the errors are exactly the non-nil transport outcomes. -/
theorem runEtcdSnapshotCreateLoop_allGenOk (c : EtcdCreateCollab)
    (joinServer : String) :
    ∀ servers : List planEntry,
      (∀ s ∈ servers, (generateEtcdSnapshotCreatePlan c s joinServer).2.2 = none) →
      ∀ errs disp, runEtcdSnapshotCreateLoop c joinServer servers errs disp =
        ⟨errs ++ (servers.filterMap (nodeDispatchResult c joinServer)).map some,
          disp ++ servers⟩ := by
  intro servers
  induction servers with
  | nil => intro _ errs disp; simp [runEtcdSnapshotCreateLoop]
  | cons s rest ih =>
    intro hgen errs disp
    have hs : (generateEtcdSnapshotCreatePlan c s joinServer).2.2 = none :=
      hgen s (List.mem_cons_self s rest)
    have hrest : ∀ x ∈ rest, (generateEtcdSnapshotCreatePlan c x joinServer).2.2 = none :=
      fun x hx => hgen x (List.mem_cons_of_mem s hx)
    simp only [runEtcdSnapshotCreateLoop, hs]
    cases hd : nodeDispatchResult c joinServer s with
    | some e =>
      dsimp only
      rw [ih hrest (errs ++ [some e]) (disp ++ [s])]
      simp [List.filterMap_cons, hd]
    | none =>
      dsimp only
      rw [ih hrest errs (disp ++ [s])]
      simp [List.filterMap_cons, hd]

/-- C8: runEtcdSnapshotCreate returns a terminal, non-waiting error and
dispatches no plan when filtering the cluster plan to etcd role nodes yields
an empty set. -/
theorem C8_runEtcdSnapshotCreate_noNodes (c : EtcdCreateCollab)
    (clusterPlan : List planEntry) (joinServer : String)
    (h : collect clusterPlan isEtcd = []) :
    runEtcdSnapshotCreate c clusterPlan joinServer =
      ⟨[some (GoError.terminal "failed to find node to perform etcd snapshot")], []⟩
    ∧ IsErrWaiting (GoError.terminal "failed to find node to perform etcd snapshot")
      = false := by
  constructor
  · simp [runEtcdSnapshotCreate, h]
  · rfl

/-- Witness for C8: a cluster plan whose only machine lacks the etcd role
yields the terminal no-node error and an empty dispatch trace. -/
theorem C8_runEtcdSnapshotCreate_noNodes_witness :
    runEtcdSnapshotCreate
        ⟨fun _ _ => (⟨[], []⟩, "", none), fun _ => ⟨"install", "sh", []⟩, "rke2",
          fun _ _ _ _ _ _ => none⟩
        [⟨⟨"fleet-default", "m1", none⟩, false⟩] "join" =
      ⟨[some (GoError.terminal "failed to find node to perform etcd snapshot")], []⟩ :=
  (C8_runEtcdSnapshotCreate_noNodes
    ⟨fun _ _ => (⟨[], []⟩, "", none), fun _ => ⟨"install", "sh", []⟩, "rke2",
      fun _ _ _ _ _ _ => none⟩
    [⟨⟨"fleet-default", "m1", none⟩, false⟩] "join" rfl).1

/-- C5entry1 is an etcd node whose plan generation fails in the C5
counterexample collaborator. -/
def C5entry1 : planEntry := ⟨⟨"fleet-default", "m1", none⟩, true⟩

/-- C5entry2 is an etcd node whose dispatch would return a terminal error in
the C5 counterexample collaborator. -/
def C5entry2 : planEntry := ⟨⟨"fleet-default", "m2", none⟩, true⟩

/-- C5collab is a collaborator assignment under which plan generation fails
for the first machine and dispatch fails for the second. -/
def C5collab : EtcdCreateCollab :=
  ⟨fun e _ => (⟨[], []⟩, "srv",
      if e.Machine.Name = "m1" then some (GoError.terminal "boom") else none),
    fun _ => ⟨"install", "sh", []⟩, "rke2",
    fun _ e _ _ _ _ =>
      if e.Machine.Name = "m2" then some (GoError.terminal "lost") else none⟩

/-- C5 counterexample: the claim states that over a non-empty set of etcd
nodes every node is dispatched and all non-nil per-node dispatch errors are
collected without short-circuiting.  With a plan generation failure on the
first node, the invocation returns only that error: the second node is never
dispatched and its dispatch error is absent from the returned list. -/
theorem C5_runEtcdSnapshotCreate_counterexample :
    collect [C5entry1, C5entry2] isEtcd = [C5entry1, C5entry2]
    ∧ runEtcdSnapshotCreate C5collab [C5entry1, C5entry2] "join" =
      ⟨[some (GoError.terminal "boom")], []⟩
    ∧ C5entry2 ∉ (runEtcdSnapshotCreate C5collab [C5entry1, C5entry2] "join").dispatched
    ∧ nodeDispatchResult C5collab "join" C5entry2 = some (GoError.terminal "lost")
    ∧ some (GoError.terminal "lost") ∉
      (runEtcdSnapshotCreate C5collab [C5entry1, C5entry2] "join").errs := by
  refine ⟨rfl, rfl, ?_, rfl, ?_⟩
  · intro hmem
    simp [runEtcdSnapshotCreate, runEtcdSnapshotCreateLoop, collect, isEtcd, C5entry1,
      C5entry2, C5collab, generateEtcdSnapshotCreatePlan] at hmem
  · intro hmem
    simp [runEtcdSnapshotCreate, runEtcdSnapshotCreateLoop, collect, isEtcd, C5entry1,
      C5entry2, C5collab, generateEtcdSnapshotCreatePlan] at hmem

/-- C5 amended: provided plan generation succeeds for every etcd node, one
invocation of runEtcdSnapshotCreate over a non-empty set of etcd nodes
dispatches every node and collects all non-nil per-node dispatch errors into
the returned list, in order, without short-circuiting; a plan generation
failure instead short-circuits, returning only that error. -/
theorem C5_runEtcdSnapshotCreate_amended (c : EtcdCreateCollab)
    (clusterPlan : List planEntry) (joinServer : String)
    (hne : collect clusterPlan isEtcd ≠ [])
    (hgen : ∀ s ∈ collect clusterPlan isEtcd,
      (generateEtcdSnapshotCreatePlan c s joinServer).2.2 = none) :
    runEtcdSnapshotCreate c clusterPlan joinServer =
      ⟨((collect clusterPlan isEtcd).filterMap (nodeDispatchResult c joinServer)).map some,
        collect clusterPlan isEtcd⟩ := by
  have hlen : ¬(collect clusterPlan isEtcd).length = 0 := by
    intro h0
    exact hne (List.length_eq_zero.mp h0)
  unfold runEtcdSnapshotCreate
  rw [if_neg hlen]
  rw [runEtcdSnapshotCreateLoop_allGenOk c joinServer (collect clusterPlan isEtcd)
    hgen [] []]
  simp

/-- Witness for C5 amended: two etcd nodes with successful plan generation,
the first failing dispatch with a terminal error and the second succeeding;
both nodes appear in the dispatch trace and exactly the one error is
collected. -/
theorem C5_runEtcdSnapshotCreate_amended_witness :
    runEtcdSnapshotCreate
        ⟨fun _ _ => (⟨[], []⟩, "srv", none), fun _ => ⟨"install", "sh", []⟩, "rke2",
          fun _ e _ _ _ _ =>
            if e.Machine.Name = "m1" then some (GoError.terminal "lost") else none⟩
        [⟨⟨"fleet-default", "m1", none⟩, true⟩, ⟨⟨"fleet-default", "m2", none⟩, true⟩]
        "join" =
      ⟨[some (GoError.terminal "lost")],
        [⟨⟨"fleet-default", "m1", none⟩, true⟩, ⟨⟨"fleet-default", "m2", none⟩, true⟩]⟩ := by
  have h := C5_runEtcdSnapshotCreate_amended
    ⟨fun _ _ => (⟨[], []⟩, "srv", none), fun _ => ⟨"install", "sh", []⟩, "rke2",
      fun _ e _ _ _ _ =>
        if e.Machine.Name = "m1" then some (GoError.terminal "lost") else none⟩
    [⟨⟨"fleet-default", "m1", none⟩, true⟩, ⟨⟨"fleet-default", "m2", none⟩, true⟩]
    "join" (by decide) (by intro s hs; rfl)
  simpa using h

/-- ETCDSnapshotS3 is the operator declared S3 backend target of rkev1. -/
structure ETCDSnapshotS3 where
  Endpoint : String
  EndpointCA : String
  SkipSSLVerify : Bool
  Bucket : String
  Region : String
  CloudCredentialName : String
  Folder : String
deriving DecidableEq

/-- s3Credential from s3args.go: the credential material projected out of a
cloud credential secret. -/
structure s3Credential where
  AccessKey : String
  SecretKey : String
  Region : String
  Endpoint : String
  EndpointCA : String
  SkipSSLVerify : Bool
  Bucket : String
  Folder : String
deriving DecidableEq

/-- ETCDSpec is the cluster level etcd spec restricted to its optional S3
default block. -/
structure ETCDSpec where
  S3 : Option ETCDSnapshotS3
deriving DecidableEq

/-- RKEControlPlane restricted to the fields the S3 argument synthesizer
reads: the namespace and the optional cluster level etcd spec. -/
structure RKEControlPlane where
  Namespace : String
  SpecETCD : Option ETCDSpec
deriving DecidableEq

/-- first from s3args.go: the first non-blank string of the two arguments,
left to right. -/
def first (one two : String) : String :=
  if one = "" then two else one

/-- S3Enabled from s3args.go: S3 is enabled when the target is non-nil and
at least one of bucket, endpoint, folder, cloud credential name or region is
non-blank. -/
def S3Enabled (s3 : Option ETCDSnapshotS3) : Bool :=
  match s3 with
  | none => false
  | some s3 =>
    if s3.Bucket ≠ "" ∨ s3.Endpoint ≠ "" ∨ s3.Folder ≠ "" ∨
        s3.CloudCredentialName ≠ "" ∨ s3.Region ≠ "" then true
    else false

/-- Secret is an opaque secret: a list of key and value pairs (values are
byte strings). -/
structure Secret where
  Data : List (String × String)
deriving DecidableEq

/-- Modelled from the spec: the wrangler kv.RSplit collaborator strips a
namespacing prefix from a secret key — text before the last separator is
discarded.  A key without a separator is kept whole. -/
def keyAfterLastDash (k : String) : String :=
  ⟨(k.data.reverse.takeWhile (fun c => c ≠ Char.ofNat 45)).reverse⟩

/-- secretData looks a stripped key up in the secret data; with several keys
stripping to the same name the last entry wins, matching a Go map rebuild;
missing keys yield the empty string. -/
def secretData (secret : Secret) (k : String) : String :=
  (((secret.Data.filter (fun p => keyAfterLastDash p.1 = k)).getLast?).map Prod.snd).getD ""

/-- getS3Credential from s3args.go: an empty name yields the zero credential
and no error; a failing secret lookup yields the zero credential and an error
wrapping the failure text behind the lookup context; otherwise the secret
data is projected onto the credential fields after prefix stripping. -/
def getS3Credential (getCloudCredentialSecret : String → String → Except String Secret)
    (ns : String) (name : String) : s3Credential × Option GoError :=
  if name = "" then (⟨"", "", "", "", "", false, "", ""⟩, none)
  else
    match getCloudCredentialSecret ns name with
    | .error e =>
      (⟨"", "", "", "", "", false, "", ""⟩,
        some (GoError.terminal ("failed to lookup etcdSnapshotCloudCredentialName: " ++ e)))
    | .ok secret =>
      (⟨secretData secret "accessKey", secretData secret "secretKey",
        secretData secret "defaultRegion", secretData secret "defaultEndpoint",
        secretData secret "defaultEndpointCA",
        secretData secret "defaultSkipSSLVerify" = "true",
        secretData secret "defaultBucket", secretData secret "defaultFolder"⟩, none)

/-- s3Externals bundles the external collaborators of the synthesizer:
hex5 is the short content hash (wrangler name.Hex with length 5), configFile
derives the on-node path of a config file for the control plane, and b64 is
the base64 encoding of a file payload. -/
structure s3Externals where
  hex5 : String → String
  configFile : RKEControlPlane → String → String
  b64 : String → String

/-- Modelled from the spec: the strings.HasSuffix collaborator — whether a
value ends with the recognized certificate file suffix. -/
def strHasSuffix (s suf : String) : Bool :=
  suf.data.isSuffixOf s.data

/-- caFileName is the deterministic CA filename derived from the short hash
of the content, as built inline in ToArgs. -/
def caFileName (ext : s3Externals) (content : String) : String :=
  "s3-endpoint-ca-" ++ ext.hex5 content ++ ".crt"

/-- S3Args is the synthesizer output: argument list, environment assignment
list and side files. -/
structure S3Args where
  args : List String
  env : List String
  files : List PlanFile
deriving DecidableEq

/-- toArgsRendered is the pure remainder of ToArgs after credential
resolution (s3args.go lines 64 to 124): per-field precedence merging of the
request and the credential, the choice between secret key as argument or as
environment assignment, the endpoint CA handling and the trailing backend
enable flag. -/
def toArgsRendered (ext : s3Externals) (s3 : ETCDSnapshotS3) (s3Cred : s3Credential)
    (cp : RKEControlPlane) (pfx : String) (secretKeyInEnv : Bool) : S3Args :=
  let args : List String := []
  let env : List String := []
  let files : List PlanFile := []
  let args := if s3.Bucket ≠ "" ∨ s3Cred.Bucket ≠ "" then
      args ++ ["--" ++ pfx ++ "s3-bucket=" ++ first s3.Bucket s3Cred.Bucket] else args
  let args := if s3Cred.AccessKey ≠ "" then
      args ++ ["--" ++ pfx ++ "s3-access-key=" ++ s3Cred.AccessKey] else args
  let env := if s3Cred.SecretKey ≠ "" ∧ secretKeyInEnv = true then
      env ++ ["AWS_SECRET_ACCESS_KEY=" ++ s3Cred.SecretKey] else env
  let args := if s3Cred.SecretKey ≠ "" ∧ secretKeyInEnv = false then
      args ++ ["--" ++ pfx ++ "s3-secret-key=" ++ s3Cred.SecretKey] else args
  let args := if first s3.Region s3Cred.Region ≠ "" then
      args ++ ["--" ++ pfx ++ "s3-region=" ++ first s3.Region s3Cred.Region] else args
  let args := if first s3.Folder s3Cred.Folder ≠ "" then
      args ++ ["--" ++ pfx ++ "s3-folder=" ++ first s3.Folder s3Cred.Folder] else args
  let args := if first s3.Endpoint s3Cred.Endpoint ≠ "" then
      args ++ ["--" ++ pfx ++ "s3-endpoint=" ++ first s3.Endpoint s3Cred.Endpoint] else args
  let args := if s3.SkipSSLVerify = true ∨ s3Cred.SkipSSLVerify = true then
      args ++ ["--" ++ pfx ++ "s3-skip-ssl-verify"] else args
  let v := first s3.EndpointCA s3Cred.EndpointCA
  let args := if v ≠ "" then
      (if v = s3.EndpointCA ∧ strHasSuffix v ".crt" = true then
        args ++ ["--" ++ pfx ++ "s3-endpoint-ca=" ++ v]
      else args ++ ["--" ++ pfx ++ "s3-endpoint-ca=" ++ ext.configFile cp (caFileName ext v)])
    else args
  let files := if v ≠ "" then
      (if v = s3.EndpointCA ∧ strHasSuffix v ".crt" = true then
        (if s3Cred.EndpointCA ≠ "" ∧ ext.configFile cp (caFileName ext s3Cred.EndpointCA) = v then
          files ++ [⟨ext.b64 s3Cred.EndpointCA, ext.configFile cp (caFileName ext s3Cred.EndpointCA)⟩]
        else files)
      else files ++ [⟨ext.b64 v, ext.configFile cp (caFileName ext v)⟩])
    else files
  let args := if args.length > 0 then args ++ ["--" ++ pfx ++ "s3"] else args
  ⟨args, env, files⟩

/-- effectiveCredName is the credential reference resolution of ToArgs: the
explicit per-request reference wins; when blank, the cluster level etcd S3
credential reference is used if the etcd spec and its S3 block are present. -/
def effectiveCredName (s3 : ETCDSnapshotS3) (cp : RKEControlPlane) : String :=
  if s3.CloudCredentialName = "" then
    match cp.SpecETCD with
    | some etcd =>
      match etcd.S3 with
      | some cs3 => cs3.CloudCredentialName
      | none => ""
    | none => ""
  else s3.CloudCredentialName

/-- ToArgs from s3args.go: nil or disabled targets produce empty output with
no error and observe no credential lookup; otherwise the credential reference
is resolved through getS3Credential (whose failure is returned with empty
output) and the merged fields are rendered. -/
def ToArgs (ext : s3Externals)
    (getCloudCredentialSecret : String → String → Except String Secret)
    (s3 : Option ETCDSnapshotS3) (cp : RKEControlPlane) (pfx : String)
    (secretKeyInEnv : Bool) : S3Args × Option GoError :=
  match s3 with
  | none => (⟨[], [], []⟩, none)
  | some s3 =>
    if S3Enabled (some s3) = false then (⟨[], [], []⟩, none)
    else
      match getS3Credential getCloudCredentialSecret cp.Namespace (effectiveCredName s3 cp) with
      | (_, some e) => (⟨[], [], []⟩, some e)
      | (s3Cred, none) => (toArgsRendered ext s3 s3Cred cp pfx secretKeyInEnv, none)

theorem mem_ite_append_keep {α : Type} (a : α) (l m : List α) (c : Prop) [Decidable c]
    (h : a ∈ l) : a ∈ (if c then l ++ m else l) := by
  split
  · exact List.mem_append_left m h
  · exact h

theorem mem_ite_ite_append_keep {α : Type} (a : α) (l m m2 : List α) (c d : Prop)
    [Decidable c] [Decidable d] (h : a ∈ l) :
    a ∈ (if c then (if d then l ++ m else l ++ m2) else l) := by
  split
  · split
    · exact List.mem_append_left m h
    · exact List.mem_append_left m2 h
  · exact h

theorem mem_append_singleton_self {α : Type} (l : List α) (a : α) : a ∈ l ++ [a] :=
  List.mem_append_right l (by simp)

/-- ToArgs_enabled bridges ToArgs to its pure remainder: with an enabled
target and a successful credential resolution, ToArgs returns the rendered
output and no error. -/
theorem ToArgs_enabled (ext : s3Externals)
    (lookup : String → String → Except String Secret) (s3 : ETCDSnapshotS3)
    (cred : s3Credential) (cp : RKEControlPlane) (pfx : String) (skE : Bool)
    (hen : S3Enabled (some s3) = true)
    (hcred : getS3Credential lookup cp.Namespace (effectiveCredName s3 cp) = (cred, none)) :
    ToArgs ext lookup (some s3) cp pfx skE =
      (toArgsRendered ext s3 cred cp pfx skE, none) := by
  unfold ToArgs
  dsimp only
  rw [if_neg (by simp [hen]), hcred]

/-- C6: ToArgs with a nil target, or with a target whose bucket, endpoint,
folder, credential reference and region are all blank, returns empty args,
empty env, empty files and no error; the result is the same for every
credential lookup function, so no credential lookup is observed. -/
theorem C6_ToArgs_emptyTarget (ext : s3Externals)
    (lookup : String → String → Except String Secret) (cp : RKEControlPlane)
    (pfx : String) (skE : Bool) :
    ToArgs ext lookup none cp pfx skE = (⟨[], [], []⟩, none)
    ∧ (∀ s3 : ETCDSnapshotS3, s3.Bucket = "" → s3.Endpoint = "" → s3.Folder = "" →
      s3.CloudCredentialName = "" → s3.Region = "" →
      ToArgs ext lookup (some s3) cp pfx skE = (⟨[], [], []⟩, none)) := by
  constructor
  · rfl
  · intro s3 h1 h2 h3 h4 h5
    have hdis : S3Enabled (some s3) = false := by
      simp [S3Enabled, h1, h2, h3, h4, h5]
    unfold ToArgs
    dsimp only
    rw [if_pos hdis]

/-- Witness for C6: a target carrying only a CA value and the skip flag is
not identifying; even under a lookup that always fails, ToArgs returns the
empty output with no error. -/
theorem C6_ToArgs_emptyTarget_witness :
    ToArgs ⟨fun s => s, fun _ n => n, fun s => s⟩ (fun _ _ => Except.error "boom")
        none ⟨"fleet-default", none⟩ "etcd-" true = (⟨[], [], []⟩, none)
    ∧ ToArgs ⟨fun s => s, fun _ n => n, fun s => s⟩ (fun _ _ => Except.error "boom")
        (some ⟨"", "some-ca-content", true, "", "", "", ""⟩) ⟨"fleet-default", none⟩
        "etcd-" true = (⟨[], [], []⟩, none) :=
  ⟨(C6_ToArgs_emptyTarget ⟨fun s => s, fun _ n => n, fun s => s⟩
      (fun _ _ => Except.error "boom") ⟨"fleet-default", none⟩ "etcd-" true).1,
    (C6_ToArgs_emptyTarget ⟨fun s => s, fun _ n => n, fun s => s⟩
      (fun _ _ => Except.error "boom") ⟨"fleet-default", none⟩ "etcd-" true).2
      ⟨"", "some-ca-content", true, "", "", "", ""⟩ rfl rfl rfl rfl rfl⟩

/-- C9: getS3Credential with an empty name returns the all-empty credential
and no error; with a non-empty name whose secret lookup fails it returns the
all-empty credential and an error wrapping the lookup failure behind the
context naming the failed reference kind. -/
theorem C9_getS3Credential_spec
    (lookup : String → String → Except String Secret) (ns name e : String) :
    getS3Credential lookup ns "" = (⟨"", "", "", "", "", false, "", ""⟩, none)
    ∧ (name ≠ "" → lookup ns name = Except.error e →
      getS3Credential lookup ns name =
        (⟨"", "", "", "", "", false, "", ""⟩,
          some (GoError.terminal
            ("failed to lookup etcdSnapshotCloudCredentialName: " ++ e)))) := by
  constructor
  · rfl
  · intro hn hl
    unfold getS3Credential
    rw [if_neg hn, hl]

/-- Witness for C9: a lookup that reports a missing secret is wrapped with
the lookup context; the empty name short-circuits to the empty credential. -/
theorem C9_getS3Credential_spec_witness :
    getS3Credential (fun _ _ => Except.error "secret cc-abcde not found")
        "fleet-default" "" = (⟨"", "", "", "", "", false, "", ""⟩, none)
    ∧ getS3Credential (fun _ _ => Except.error "secret cc-abcde not found")
        "fleet-default" "cc-abcde" =
      (⟨"", "", "", "", "", false, "", ""⟩,
        some (GoError.terminal
          ("failed to lookup etcdSnapshotCloudCredentialName: "
            ++ "secret cc-abcde not found"))) :=
  ⟨(C9_getS3Credential_spec (fun _ _ => Except.error "secret cc-abcde not found")
      "fleet-default" "cc-abcde" "secret cc-abcde not found").1,
    (C9_getS3Credential_spec (fun _ _ => Except.error "secret cc-abcde not found")
      "fleet-default" "cc-abcde" "secret cc-abcde not found").2
      (by decide) rfl⟩

/-- C3: ToArgs applies per-field precedence — for bucket, region, folder and
endpoint the explicit request value is used when non-empty and the credential
derived value otherwise; the skip-ssl-verify flag is emitted when either side
sets it; the access key and secret key are taken only from the resolved
credential (the request type carries no key material), the secret key going
to the environment instead of the arguments when secretKeyInEnv is set. -/
theorem C3_ToArgs_precedence (ext : s3Externals)
    (lookup : String → String → Except String Secret) (s3 : ETCDSnapshotS3)
    (cred : s3Credential) (cp : RKEControlPlane) (pfx : String) (skE : Bool)
    (hen : S3Enabled (some s3) = true)
    (hcred : getS3Credential lookup cp.Namespace (effectiveCredName s3 cp) = (cred, none)) :
    (ToArgs ext lookup (some s3) cp pfx skE).2 = none
    ∧ (s3.Bucket ≠ "" → ("--" ++ pfx ++ "s3-bucket=" ++ s3.Bucket) ∈
        (ToArgs ext lookup (some s3) cp pfx skE).1.args)
    ∧ (s3.Bucket = "" → cred.Bucket ≠ "" → ("--" ++ pfx ++ "s3-bucket=" ++ cred.Bucket) ∈
        (ToArgs ext lookup (some s3) cp pfx skE).1.args)
    ∧ (s3.Region ≠ "" → ("--" ++ pfx ++ "s3-region=" ++ s3.Region) ∈
        (ToArgs ext lookup (some s3) cp pfx skE).1.args)
    ∧ (s3.Region = "" → cred.Region ≠ "" → ("--" ++ pfx ++ "s3-region=" ++ cred.Region) ∈
        (ToArgs ext lookup (some s3) cp pfx skE).1.args)
    ∧ (s3.Folder ≠ "" → ("--" ++ pfx ++ "s3-folder=" ++ s3.Folder) ∈
        (ToArgs ext lookup (some s3) cp pfx skE).1.args)
    ∧ (s3.Folder = "" → cred.Folder ≠ "" → ("--" ++ pfx ++ "s3-folder=" ++ cred.Folder) ∈
        (ToArgs ext lookup (some s3) cp pfx skE).1.args)
    ∧ (s3.Endpoint ≠ "" → ("--" ++ pfx ++ "s3-endpoint=" ++ s3.Endpoint) ∈
        (ToArgs ext lookup (some s3) cp pfx skE).1.args)
    ∧ (s3.Endpoint = "" → cred.Endpoint ≠ "" →
        ("--" ++ pfx ++ "s3-endpoint=" ++ cred.Endpoint) ∈
        (ToArgs ext lookup (some s3) cp pfx skE).1.args)
    ∧ (s3.SkipSSLVerify = true ∨ cred.SkipSSLVerify = true →
        ("--" ++ pfx ++ "s3-skip-ssl-verify") ∈
        (ToArgs ext lookup (some s3) cp pfx skE).1.args)
    ∧ (cred.AccessKey ≠ "" → ("--" ++ pfx ++ "s3-access-key=" ++ cred.AccessKey) ∈
        (ToArgs ext lookup (some s3) cp pfx skE).1.args)
    ∧ (skE = false → cred.SecretKey ≠ "" →
        ("--" ++ pfx ++ "s3-secret-key=" ++ cred.SecretKey) ∈
        (ToArgs ext lookup (some s3) cp pfx skE).1.args)
    ∧ (skE = true → cred.SecretKey ≠ "" →
        ("AWS_SECRET_ACCESS_KEY=" ++ cred.SecretKey) ∈
        (ToArgs ext lookup (some s3) cp pfx skE).1.env) := by
  rw [ToArgs_enabled ext lookup s3 cred cp pfx skE hen hcred]
  refine ⟨rfl, ?_, ?_, ?_, ?_, ?_, ?_, ?_, ?_, ?_, ?_, ?_, ?_⟩
  · intro hb
    have hf : first s3.Bucket cred.Bucket = s3.Bucket := by simp [first, hb]
    simp only [toArgsRendered]
    apply mem_ite_append_keep
    apply mem_ite_ite_append_keep
    apply mem_ite_append_keep
    apply mem_ite_append_keep
    apply mem_ite_append_keep
    apply mem_ite_append_keep
    apply mem_ite_append_keep
    apply mem_ite_append_keep
    rw [if_pos (Or.inl hb), hf]
    simp
  · intro hb hcb
    have hf : first s3.Bucket cred.Bucket = cred.Bucket := by simp [first, hb]
    simp only [toArgsRendered]
    apply mem_ite_append_keep
    apply mem_ite_ite_append_keep
    apply mem_ite_append_keep
    apply mem_ite_append_keep
    apply mem_ite_append_keep
    apply mem_ite_append_keep
    apply mem_ite_append_keep
    apply mem_ite_append_keep
    rw [if_pos (Or.inr hcb), hf]
    simp
  · intro hr
    have hf : first s3.Region cred.Region = s3.Region := by simp [first, hr]
    simp only [toArgsRendered]
    apply mem_ite_append_keep
    apply mem_ite_ite_append_keep
    apply mem_ite_append_keep
    apply mem_ite_append_keep
    apply mem_ite_append_keep
    rw [if_pos (by rw [hf]; exact hr), hf]
    exact mem_append_singleton_self _ _
  · intro hr hcr
    have hf : first s3.Region cred.Region = cred.Region := by simp [first, hr]
    simp only [toArgsRendered]
    apply mem_ite_append_keep
    apply mem_ite_ite_append_keep
    apply mem_ite_append_keep
    apply mem_ite_append_keep
    apply mem_ite_append_keep
    rw [if_pos (by rw [hf]; exact hcr), hf]
    exact mem_append_singleton_self _ _
  · intro hr
    have hf : first s3.Folder cred.Folder = s3.Folder := by simp [first, hr]
    simp only [toArgsRendered]
    apply mem_ite_append_keep
    apply mem_ite_ite_append_keep
    apply mem_ite_append_keep
    apply mem_ite_append_keep
    rw [if_pos (by rw [hf]; exact hr), hf]
    exact mem_append_singleton_self _ _
  · intro hr hcr
    have hf : first s3.Folder cred.Folder = cred.Folder := by simp [first, hr]
    simp only [toArgsRendered]
    apply mem_ite_append_keep
    apply mem_ite_ite_append_keep
    apply mem_ite_append_keep
    apply mem_ite_append_keep
    rw [if_pos (by rw [hf]; exact hcr), hf]
    exact mem_append_singleton_self _ _
  · intro hr
    have hf : first s3.Endpoint cred.Endpoint = s3.Endpoint := by simp [first, hr]
    simp only [toArgsRendered]
    apply mem_ite_append_keep
    apply mem_ite_ite_append_keep
    apply mem_ite_append_keep
    rw [if_pos (by rw [hf]; exact hr), hf]
    exact mem_append_singleton_self _ _
  · intro hr hcr
    have hf : first s3.Endpoint cred.Endpoint = cred.Endpoint := by simp [first, hr]
    simp only [toArgsRendered]
    apply mem_ite_append_keep
    apply mem_ite_ite_append_keep
    apply mem_ite_append_keep
    rw [if_pos (by rw [hf]; exact hcr), hf]
    exact mem_append_singleton_self _ _
  · intro hsv
    simp only [toArgsRendered]
    apply mem_ite_append_keep
    apply mem_ite_ite_append_keep
    rw [if_pos hsv]
    exact mem_append_singleton_self _ _
  · intro hA
    simp only [toArgsRendered]
    apply mem_ite_append_keep
    apply mem_ite_ite_append_keep
    apply mem_ite_append_keep
    apply mem_ite_append_keep
    apply mem_ite_append_keep
    apply mem_ite_append_keep
    apply mem_ite_append_keep
    rw [if_pos hA]
    exact mem_append_singleton_self _ _
  · intro hse hsk
    subst hse
    simp only [toArgsRendered]
    apply mem_ite_append_keep
    apply mem_ite_ite_append_keep
    apply mem_ite_append_keep
    apply mem_ite_append_keep
    apply mem_ite_append_keep
    apply mem_ite_append_keep
    rw [if_pos ⟨hsk, trivial⟩]
    exact mem_append_singleton_self _ _
  · intro hse hsk
    subst hse
    simp only [toArgsRendered]
    rw [if_pos ⟨hsk, trivial⟩]
    simp

/-- Witness for C3, matching the spec examples: request region eu-west-1 with
credential region us-east-1 yields the request value; blank request region
with credential region us-east-1 yields the credential value. -/
theorem C3_ToArgs_precedence_witness :
    "--s3-region=eu-west-1" ∈
      (ToArgs ⟨fun s => s, fun _ n => n, fun s => s⟩
        (fun _ _ => Except.ok ⟨[("amazonec2credentialConfig-defaultRegion", "us-east-1")]⟩)
        (some ⟨"", "", false, "", "eu-west-1", "cc-abcde", ""⟩)
        ⟨"fleet-default", none⟩ "" false).1.args
    ∧ "--s3-region=us-east-1" ∈
      (ToArgs ⟨fun s => s, fun _ n => n, fun s => s⟩
        (fun _ _ => Except.ok ⟨[("amazonec2credentialConfig-defaultRegion", "us-east-1")]⟩)
        (some ⟨"", "", false, "", "", "cc-abcde", ""⟩)
        ⟨"fleet-default", none⟩ "" false).1.args :=
  ⟨(C3_ToArgs_precedence ⟨fun s => s, fun _ n => n, fun s => s⟩
      (fun _ _ => Except.ok ⟨[("amazonec2credentialConfig-defaultRegion", "us-east-1")]⟩)
      ⟨"", "", false, "", "eu-west-1", "cc-abcde", ""⟩
      ⟨"", "", "us-east-1", "", "", false, "", ""⟩
      ⟨"fleet-default", none⟩ "" false rfl rfl).2.2.2.1 (by decide),
    (C3_ToArgs_precedence ⟨fun s => s, fun _ n => n, fun s => s⟩
      (fun _ _ => Except.ok ⟨[("amazonec2credentialConfig-defaultRegion", "us-east-1")]⟩)
      ⟨"", "", false, "", "", "cc-abcde", ""⟩
      ⟨"", "", "us-east-1", "", "", false, "", ""⟩
      ⟨"fleet-default", none⟩ "" false rfl rfl).2.2.2.2.1 rfl (by decide)⟩

/-- C4: for a non-empty merged endpoint CA value, when the value equals the
request literal CA field and carries the .crt suffix, the argument references
the value as a path and a side file carrying the credential CA content at
that path is emitted iff the deterministic filename derived from the hash of
the non-empty credential CA equals the value; otherwise the value is literal
content, exactly one side file with that content is emitted at the
deterministic hash derived path and the argument references that path. -/
theorem C4_ToArgs_endpointCA (ext : s3Externals)
    (lookup : String → String → Except String Secret) (s3 : ETCDSnapshotS3)
    (cred : s3Credential) (cp : RKEControlPlane) (pfx : String) (skE : Bool)
    (hen : S3Enabled (some s3) = true)
    (hcred : getS3Credential lookup cp.Namespace (effectiveCredName s3 cp) = (cred, none)) :
    (first s3.EndpointCA cred.EndpointCA ≠ "" →
      first s3.EndpointCA cred.EndpointCA = s3.EndpointCA →
      strHasSuffix (first s3.EndpointCA cred.EndpointCA) ".crt" = true →
      ("--" ++ pfx ++ "s3-endpoint-ca=" ++ first s3.EndpointCA cred.EndpointCA) ∈
        (ToArgs ext lookup (some s3) cp pfx skE).1.args
      ∧ (ToArgs ext lookup (some s3) cp pfx skE).1.files =
        (if cred.EndpointCA ≠ "" ∧ ext.configFile cp (caFileName ext cred.EndpointCA) =
            first s3.EndpointCA cred.EndpointCA then
          [⟨ext.b64 cred.EndpointCA, ext.configFile cp (caFileName ext cred.EndpointCA)⟩]
        else []))
    ∧ (first s3.EndpointCA cred.EndpointCA ≠ "" →
      ¬(first s3.EndpointCA cred.EndpointCA = s3.EndpointCA ∧
        strHasSuffix (first s3.EndpointCA cred.EndpointCA) ".crt" = true) →
      ("--" ++ pfx ++ "s3-endpoint-ca=" ++
          ext.configFile cp (caFileName ext (first s3.EndpointCA cred.EndpointCA))) ∈
        (ToArgs ext lookup (some s3) cp pfx skE).1.args
      ∧ (ToArgs ext lookup (some s3) cp pfx skE).1.files =
        [⟨ext.b64 (first s3.EndpointCA cred.EndpointCA),
          ext.configFile cp (caFileName ext (first s3.EndpointCA cred.EndpointCA))⟩]) := by
  rw [ToArgs_enabled ext lookup s3 cred cp pfx skE hen hcred]
  constructor
  · intro hv hpe hsuf
    constructor
    · simp only [toArgsRendered]
      apply mem_ite_append_keep
      rw [if_pos hv, if_pos ⟨hpe, hsuf⟩]
      exact mem_append_singleton_self _ _
    · simp only [toArgsRendered]
      rw [if_pos hv, if_pos ⟨hpe, hsuf⟩]
      simp
  · intro hv hnp
    constructor
    · simp only [toArgsRendered]
      apply mem_ite_append_keep
      rw [if_pos hv, if_neg hnp]
      exact mem_append_singleton_self _ _
    · simp only [toArgsRendered]
      rw [if_pos hv, if_neg hnp]
      simp

/-- Witness for C4 at a concrete input: a literal CA content value without
the .crt suffix produces exactly one side file at the hash derived path and
an argument referencing that path. -/
theorem C4_ToArgs_endpointCA_witness :
    ("--s3-endpoint-ca=/var/lib/rancher/s3-endpoint-ca-mycacontent.crt") ∈
      (ToArgs ⟨fun s => s, fun _ n => "/var/lib/rancher/" ++ n, fun s => s⟩
        (fun _ _ => Except.error "unused")
        (some ⟨"", "mycacontent", false, "bkt", "", "", ""⟩)
        ⟨"fleet-default", none⟩ "" false).1.args
    ∧ (ToArgs ⟨fun s => s, fun _ n => "/var/lib/rancher/" ++ n, fun s => s⟩
        (fun _ _ => Except.error "unused")
        (some ⟨"", "mycacontent", false, "bkt", "", "", ""⟩)
        ⟨"fleet-default", none⟩ "" false).1.files =
      [⟨"mycacontent", "/var/lib/rancher/s3-endpoint-ca-mycacontent.crt"⟩] :=
  (C4_ToArgs_endpointCA ⟨fun s => s, fun _ n => "/var/lib/rancher/" ++ n, fun s => s⟩
    (fun _ _ => Except.error "unused")
    ⟨"", "mycacontent", false, "bkt", "", "", ""⟩
    ⟨"", "", "", "", "", false, "", ""⟩
    ⟨"fleet-default", none⟩ "" false rfl rfl).2 (by decide)
    (fun h => absurd h.2 (by decide))

/-- C10: with secretKeyInEnv set, the credential secret key is emitted only
as the AWS_SECRET_ACCESS_KEY environment assignment — the argument list does
not depend on the secret key — and for an enabled target whose only emitted
value is the secret key, ToArgs returns a non-empty env with empty args (so
the trailing backend enable flag is absent) and empty files. -/
theorem C10_ToArgs_secretKeyEnvOnly (ext : s3Externals)
    (lookup : String → String → Except String Secret) (s3 : ETCDSnapshotS3)
    (cred : s3Credential) (cp : RKEControlPlane) (pfx : String)
    (hen : S3Enabled (some s3) = true)
    (hcred : getS3Credential lookup cp.Namespace (effectiveCredName s3 cp) = (cred, none)) :
    ((ToArgs ext lookup (some s3) cp pfx true).1.env =
      if cred.SecretKey ≠ "" then ["AWS_SECRET_ACCESS_KEY=" ++ cred.SecretKey] else [])
    ∧ (∀ k k' : String,
      (toArgsRendered ext s3 { cred with SecretKey := k } cp pfx true).args =
      (toArgsRendered ext s3 { cred with SecretKey := k' } cp pfx true).args)
    ∧ (s3.Bucket = "" → cred.Bucket = "" → cred.AccessKey = "" → s3.Region = "" →
      cred.Region = "" → s3.Folder = "" → cred.Folder = "" → s3.Endpoint = "" →
      cred.Endpoint = "" → s3.SkipSSLVerify = false → cred.SkipSSLVerify = false →
      s3.EndpointCA = "" → cred.EndpointCA = "" → cred.SecretKey ≠ "" →
      ToArgs ext lookup (some s3) cp pfx true =
        (⟨[], ["AWS_SECRET_ACCESS_KEY=" ++ cred.SecretKey], []⟩, none)) := by
  refine ⟨?_, ?_, ?_⟩
  · rw [ToArgs_enabled ext lookup s3 cred cp pfx true hen hcred]
    simp only [toArgsRendered]
    by_cases hsk : cred.SecretKey = "" <;> simp [hsk]
  · intro k k'
    simp only [toArgsRendered]
    simp
  · intro h1 h2 h3 h4 h5 h6 h7 h8 h9 h10 h11 h12 h13 h14
    rw [ToArgs_enabled ext lookup s3 cred cp pfx true hen hcred]
    simp only [toArgsRendered]
    simp [first, h1, h2, h3, h4, h5, h6, h7, h8, h9, h10, h11, h12, h13, h14]

/-- Witness for C10 at a concrete input: a target enabled only through its
credential reference, with a credential carrying only a secret key, yields
empty args (no trailing enable flag), the single environment assignment and
no files. -/
theorem C10_ToArgs_secretKeyEnvOnly_witness :
    ToArgs ⟨fun s => s, fun _ n => n, fun s => s⟩
        (fun _ _ => Except.ok ⟨[("amazonec2credentialConfig-secretKey", "topsecret")]⟩)
        (some ⟨"", "", false, "", "", "cc-abcde", ""⟩)
        ⟨"fleet-default", none⟩ "etcd-" true =
      (⟨[], ["AWS_SECRET_ACCESS_KEY=topsecret"], []⟩, none) :=
  (C10_ToArgs_secretKeyEnvOnly ⟨fun s => s, fun _ n => n, fun s => s⟩
    (fun _ _ => Except.ok ⟨[("amazonec2credentialConfig-secretKey", "topsecret")]⟩)
    ⟨"", "", false, "", "", "cc-abcde", ""⟩
    ⟨"", "topsecret", "", "", "", false, "", ""⟩
    ⟨"fleet-default", none⟩ "etcd-" rfl rfl).2.2
    rfl rfl rfl rfl rfl rfl rfl rfl rfl rfl rfl rfl rfl (by decide)
